import Mathlib

/-!
Verification of `scripts/ws_handshake_probe.py`, a one-shot WebSocket
handshake probe.  The script's pure logic (request construction, response
parsing, exit-code derivation, port validation) is embedded below; the
network is modelled as an explicit oracle (`NetOutcome`) giving, for each
probe, either a connection-level failure (any `OSError`: connect, send or
receive failure, including timeout) or the raw bytes returned by the single
`recv` call.
-/

namespace WsProbe

/-- Mirror of the `ProbeResult` dataclass. -/
structure ProbeResult where
  label : String
  status_line : String
  header_block : String
  ok : Bool
  deriving DecidableEq

/-- Python's `bytes.decode("latin1", errors="replace")`: every byte decodes
to the character with the same code point, one character per byte, with no
possibility of failure (latin-1 maps each of the 256 byte values). -/
def decodeLatin1 (response : List Nat) : List Char :=
  response.map (fun b => Char.ofNat b)

/-- The character list of the separator string literal `"\r\n"`. -/
def crlf : List Char := ['\r', '\n']

/-- The character list of the separator string literal `"\r\n\r\n"`. -/
def crlfcrlf : List Char := ['\r', '\n', '\r', '\n']

/-- Python's `text.split(sep, 1)[0]`: the part of `text` before the first
occurrence of `sep`, or all of `text` when `sep` does not occur. -/
def splitFirst (sep : List Char) : List Char → List Char
  | [] => []
  | c :: rest => if sep.isPrefixOf (c :: rest) then [] else c :: splitFirst sep rest

/-- Python's `s.startswith(pre)`. -/
def pyStartswith (s pre : String) : Bool := pre.data.isPrefixOf s.data

/-- Statement-side helper: the raw bytes of an ASCII string, as a server
would send them on the wire. -/
def strBytes (s : String) : List Nat := s.data.map (fun c => c.toNat)

/-- The pure tail of `run_probe` (lines 57-73): classify the bytes returned
by the single `recv`.  Empty bytes give the `<no response>` sentinel result;
otherwise the bytes are decoded as latin-1, the header block is the text
before the first `\r\n\r\n`, the status line is the header block's first
line, and `ok` is the `status_line.startswith("HTTP/1.1 101")` test. -/
def probeParse (label : String) (response : List Nat) : ProbeResult :=
  if response = [] then
    ⟨label, "<no response>", "", false⟩
  else
    let text := decodeLatin1 response
    let header_block := splitFirst crlfcrlf text
    let status_line := splitFirst crlf header_block
    ⟨label, ⟨status_line⟩, ⟨header_block⟩, pyStartswith ⟨status_line⟩ "HTTP/1.1 101"⟩

/-- Python's `"\r\n".join`. -/
def joinCRLF : List String → String
  | [] => ""
  | [s] => s
  | s :: rest => s ++ "\r\n" ++ joinCRLF rest

/-- The header list built by `run_probe` (lines 38-47).  The random
`Sec-WebSocket-Key` value is passed in as `key` (injected randomness). -/
def buildHeaders (host : String) (port : Int) (path key : String)
    (include_extensions : Bool) : List String :=
  let base : List String :=
    ["GET " ++ path ++ " HTTP/1.1",
     "Host: " ++ host ++ ":" ++ toString port,
     "Upgrade: websocket",
     "Connection: Upgrade",
     "Sec-WebSocket-Key: " ++ key,
     "Sec-WebSocket-Version: 13"]
  if include_extensions then
    base ++ ["Sec-WebSocket-Extensions: permessage-deflate; client_max_window_bits"]
  else
    base

/-- The request text sent by `run_probe` (line 48):
`"\r\n".join(headers) + "\r\n\r\n"`. -/
def buildRequest (host : String) (port : Int) (path key : String)
    (include_extensions : Bool) : String :=
  joinCRLF (buildHeaders host port path key include_extensions) ++ "\r\n\r\n"

/-- Outcome of the network interaction of one probe: either an `OSError`
(connect, send or receive failure, including timeout) or the raw bytes
returned by the single `recv` call. -/
inductive NetOutcome where
  | connError
  | received (response : List Nat)
  deriving DecidableEq

/-- `run_probe` as seen by the driver, with the network outcome made
explicit: a connection-level failure propagates (`none`, the `OSError`
caught in `main`), otherwise the parsed `ProbeResult` is returned. -/
def runProbe (label : String) (o : NetOutcome) : Option ProbeResult :=
  match o with
  | .connError => none
  | .received response => some (probeParse label response)

/-- The parsed command-line arguments (`parse_args`).  `port` is an `Int`
because `argparse`'s `type=int` accepts any integer; the `timeout` float is
omitted — it only shapes the socket behaviour already absorbed into
`NetOutcome`. -/
structure Args where
  host : String
  port : Int
  path : String
  single : Bool
  extensions : Bool
  verbose : Bool

/-- Exit code of a CLI usage error: `parser.error` (line 99) raises
`SystemExit(2)` — `argparse` terminates the process with status 2 after
printing the usage message and error to stderr. -/
def usageExitCode : Nat := 2

/-- Exit code derived in `main` (lines 149-155) from the two comparison
results. -/
def comparisonExitCode (okNo okWith : Bool) : Nat :=
  if okNo && okWith then 0
  else if okNo && !okWith then 3
  else if !okNo && okWith then 4
  else 1

/-- Observable outcome of one process run: the exit code, the number of
TCP connection attempts made (`socket.create_connection` calls), and
whether anything was printed on the error stream. -/
structure RunResult where
  exitCode : Nat
  connAttempts : Nat
  errStream : Bool
  deriving DecidableEq

/-- The whole process (`parse_args` + `main`), with the network outcomes of
the (up to two) probes given as oracles.  Faithful to the control flow of
lines 97-155: an out-of-range port aborts with the usage error before any
socket is opened; in single mode one probe runs (exit 0/1, or 2 on
`OSError`); in comparison mode the `no-ext` probe runs first, an `OSError`
in it skips the `with-ext` probe entirely, and when both complete the exit
code comes from `comparisonExitCode`. -/
def mainRun (args : Args) (net1 net2 : NetOutcome) : RunResult :=
  if 1 ≤ args.port ∧ args.port ≤ 65535 then
    if args.single then
      match runProbe (if args.extensions then "with-ext" else "no-ext") net1 with
      | none => ⟨2, 1, true⟩
      | some r => ⟨if r.ok then 0 else 1, 1, false⟩
    else
      match runProbe "no-ext" net1 with
      | none => ⟨2, 1, true⟩
      | some r1 =>
        match runProbe "with-ext" net2 with
        | none => ⟨2, 2, true⟩
        | some r2 => ⟨comparisonExitCode r1.ok r2.ok, 2, false⟩
  else
    ⟨usageExitCode, 0, true⟩

/-- Modelled from the spec: the comparison-mode exit-code table of §4.2,
written directly from the spec's four table rows, to be compared with the
code's `comparisonExitCode`. -/
def specExitTable (okNo okWith : Bool) : Nat :=
  match okNo, okWith with
  | true, true => 0
  | true, false => 3
  | false, true => 4
  | false, false => 1

/-- Python's `sep in text` test for character sequences (used only to state
the no-terminator hypothesis of the partial-read edge case). -/
def containsSeq (sep : List Char) : List Char → Bool
  | [] => sep.isPrefixOf []
  | c :: rest => sep.isPrefixOf (c :: rest) || containsSeq sep rest

theorem isPrefixOf_append_left (a s : List Char) : a.isPrefixOf (a ++ s) = true := by
  induction a with
  | nil => simp [List.isPrefixOf]
  | cons c a ih => simp [List.isPrefixOf, ih]

theorem isPrefixOf_append_eq_false (a : List Char) :
    ∀ b s : List Char, (a.take b.length).isPrefixOf b = false →
      a.isPrefixOf (b ++ s) = false := by
  induction a with
  | nil => intro b s h; cases b <;> simp [List.isPrefixOf] at h
  | cons c a ih =>
    intro b s h
    cases b with
    | nil => simp [List.isPrefixOf] at h
    | cons d b =>
      simp only [List.length_cons, List.take_succ_cons, List.isPrefixOf,
        Bool.and_eq_false_iff] at h
      rcases h with h | h
      · simp [List.isPrefixOf, h]
      · simp [List.isPrefixOf, ih b s h]

theorem splitFirst_append_of_notMem (sep : List Char) (c : Char) (t : List Char)
    (hsep : sep = c :: t) :
    ∀ pre rest : List Char, c ∉ pre →
      splitFirst sep (pre ++ rest) = pre ++ splitFirst sep rest := by
  intro pre
  induction pre with
  | nil => intro rest _; rfl
  | cons d pre ih =>
    intro rest hd
    have hdc : (c == d) = false := by
      simp only [List.mem_cons, not_or] at hd
      simp [hd.1]
    have hnp : sep.isPrefixOf (d :: (pre ++ rest)) = false := by
      rw [hsep]; simp [List.isPrefixOf, hdc]
    have hd2 : c ∉ pre := by
      simp only [List.mem_cons, not_or] at hd; exact hd.2
    simp [splitFirst, hnp, ih rest hd2]

theorem splitFirst_eq_nil_of_isPrefixOf (sep : List Char) (c : Char) (rest : List Char)
    (h : sep.isPrefixOf (c :: rest) = true) :
    splitFirst sep (c :: rest) = [] := by
  simp [splitFirst, h]

theorem splitFirst_eq_self_of_not_containsSeq (sep : List Char) :
    ∀ text : List Char, containsSeq sep text = false → splitFirst sep text = text := by
  intro text
  induction text with
  | nil => intro _; rfl
  | cons c rest ih =>
    intro h
    simp only [containsSeq, Bool.or_eq_false_iff] at h
    simp [splitFirst, h.1, ih h.2]

theorem splitFirst_crlfcrlf_after_crlf (d : List Char) :
    splitFirst crlfcrlf (crlf ++ d) = [] ∨
      ∃ w, splitFirst crlfcrlf (crlf ++ d) = '\r' :: '\n' :: w := by
  by_cases hp : crlfcrlf.isPrefixOf ('\r' :: '\n' :: d) = true
  · left
    exact splitFirst_eq_nil_of_isPrefixOf crlfcrlf '\r' ('\n' :: d) hp
  · right
    refine ⟨splitFirst crlfcrlf d, ?_⟩
    have h2 : crlfcrlf.isPrefixOf ('\n' :: d) = false := by
      simp [crlfcrlf, List.isPrefixOf]
    show splitFirst crlfcrlf ('\r' :: '\n' :: d) = _
    rw [splitFirst, if_neg (by simp [hp]), splitFirst, if_neg (by simp [h2])]

/-- The status line extracted from `line ++ "\r\n" ++ d` is exactly `line`,
for any line free of carriage returns and any following raw content `d`. -/
theorem statusLine_eq_line (line : List Char) (hline : '\r' ∉ line) (d : List Char) :
    splitFirst crlf (splitFirst crlfcrlf (line ++ (crlf ++ d))) = line := by
  rw [splitFirst_append_of_notMem crlfcrlf '\r' ['\n', '\r', '\n'] rfl line (crlf ++ d) hline]
  rcases splitFirst_crlfcrlf_after_crlf d with h | ⟨w, h⟩
  · rw [h, List.append_nil]
    have := splitFirst_append_of_notMem crlf '\r' ['\n'] rfl line [] hline
    rw [List.append_nil] at this
    rw [this]
    simp [splitFirst]
  · rw [h]
    rw [splitFirst_append_of_notMem crlf '\r' ['\n'] rfl line ('\r' :: '\n' :: w) hline]
    rw [splitFirst_eq_nil_of_isPrefixOf crlf '\r' ('\n' :: w) (by simp [crlf, List.isPrefixOf])]
    rw [List.append_nil]

/-- Parsing a response of the shape `line ++ "\r\n" ++ d`: when the first
line contains no carriage return, the extracted status line is exactly
`line` and `ok` is the prefix test on `line`, whatever raw content `d`
follows. -/
theorem probeParse_line_crlf (label line : String) (hcr : '\r' ∉ line.data) (d : List Nat) :
    (probeParse label (strBytes line ++ (13 :: 10 :: d))).status_line = line ∧
    (probeParse label (strBytes line ++ (13 :: 10 :: d))).ok
      = ("HTTP/1.1 101".data).isPrefixOf line.data := by
  have hne : strBytes line ++ (13 :: 10 :: d) ≠ [] := by simp
  have h13 : Char.ofNat 13 = '\r' := rfl
  have h10 : Char.ofNat 10 = '\n' := rfl
  have htext : decodeLatin1 (strBytes line ++ (13 :: 10 :: d))
      = line.data ++ (crlf ++ decodeLatin1 d) := by
    simp [decodeLatin1, strBytes, crlf, List.map_map, Function.comp_def, h13, h10,
      Char.ofNat_toNat]
  have hsl := statusLine_eq_line line.data hcr (decodeLatin1 d)
  constructor
  · simp only [probeParse, if_neg hne, htext]
    simp only [hsl]
  · simp only [probeParse, if_neg hne, htext]
    simp only [hsl, pyStartswith]

/-- Claim C1: in comparison mode, when both probes complete without a
connection-level failure, the process exit code is exactly the spec's §4.2
table applied to the pair `(no-ext.ok, with-ext.ok)`, for all combinations. -/
theorem comparison_exit_matches_spec_table (a : Args) (b1 b2 : List Nat)
    (hport : 1 ≤ a.port ∧ a.port ≤ 65535) (hsingle : a.single = false) :
    (mainRun a (.received b1) (.received b2)).exitCode =
      specExitTable (probeParse "no-ext" b1).ok (probeParse "with-ext" b2).ok := by
  simp only [mainRun, if_pos hport, hsingle, runProbe]
  cases h1 : (probeParse "no-ext" b1).ok <;> cases h2 : (probeParse "with-ext" b2).ok <;>
    simp [comparisonExitCode, specExitTable, h1, h2]

/-- Witness for C1: a run where the baseline upgrades and the extensions
variant is rejected exits with code 3. -/
theorem comparison_exit_matches_spec_table_witness :
    (mainRun ⟨"127.0.0.1", 8080, "/", false, false, false⟩
        (.received (strBytes "HTTP/1.1 101 Switching Protocols\r\n\r\n"))
        (.received (strBytes "HTTP/1.1 400 Bad Request\r\n\r\n"))).exitCode = 3 :=
  (comparison_exit_matches_spec_table ⟨"127.0.0.1", 8080, "/", false, false, false⟩
    (strBytes "HTTP/1.1 101 Switching Protocols\r\n\r\n")
    (strBytes "HTTP/1.1 400 Bad Request\r\n\r\n") (by decide) rfl).trans (by decide)

/-- Claim C2, counterexample: at the usage-error input port 0 (no socket is
opened, `connAttempts = 0`), the process exit code is 2, which is NOT
distinct from the probe exit codes 0, 1, 2, 3, 4 — `argparse`'s
`parser.error` terminates the process with status 2, colliding with the
connection-failure code. -/
theorem usage_exit_code_counterexample :
    (mainRun ⟨"127.0.0.1", 0, "/", false, false, false⟩ .connError .connError).connAttempts
      = 0 ∧
    (mainRun ⟨"127.0.0.1", 0, "/", false, false, false⟩ .connError .connError).exitCode
      ∈ ([0, 1, 2, 3, 4] : List Nat) := by
  decide

/-- Claim C2 (amended): a CLI usage error (port outside 1..65535) makes the
process exit, before any network activity, with the non-zero exit code 2 —
distinct from the probe exit codes 0, 1, 3 and 4, but coinciding with the
connection-failure exit code 2. -/
theorem usage_error_exit (a : Args) (h : ¬ (1 ≤ a.port ∧ a.port ≤ 65535))
    (n1 n2 : NetOutcome) :
    mainRun a n1 n2 = ⟨usageExitCode, 0, true⟩ ∧ usageExitCode ≠ 0 ∧
      usageExitCode ∉ ([0, 1, 3, 4] : List Nat) ∧ usageExitCode = 2 := by
  refine ⟨by simp [mainRun, h], by decide, by decide, rfl⟩

/-- Witness for the amended C2 at port 0. -/
theorem usage_error_exit_witness :
    ¬ (1 ≤ (0 : Int) ∧ (0 : Int) ≤ 65535) ∧
    mainRun ⟨"127.0.0.1", 0, "/", false, false, false⟩ .connError .connError
      = ⟨usageExitCode, 0, true⟩ :=
  ⟨by decide, (usage_error_exit ⟨"127.0.0.1", 0, "/", false, false, false⟩ (by decide)
      .connError .connError).1⟩

/-- Claim C3: for every non-empty response, `ok` is true iff the status line
begins with `"HTTP/1.1 101"`; a response whose first line is exactly
`HTTP/1.1 101 Switching Protocols` yields `ok = true` regardless of the
following header content, and one whose first line is
`HTTP/1.1 400 Bad Request` yields `ok = false`. -/
theorem ok_iff_status_line_starts_101 (label : String) (bs : List Nat) (hbs : bs ≠ [])
    (d : List Nat) :
    (probeParse label bs).ok
      = pyStartswith (probeParse label bs).status_line "HTTP/1.1 101" ∧
    (probeParse label (strBytes "HTTP/1.1 101 Switching Protocols" ++ (13 :: 10 :: d))).ok
      = true ∧
    (probeParse label (strBytes "HTTP/1.1 400 Bad Request" ++ (13 :: 10 :: d))).ok
      = false := by
  refine ⟨?_, ?_, ?_⟩
  · simp [probeParse, hbs]
  · rw [(probeParse_line_crlf label "HTTP/1.1 101 Switching Protocols" (by decide) d).2]
    decide
  · rw [(probeParse_line_crlf label "HTTP/1.1 400 Bad Request" (by decide) d).2]
    decide

/-- Witness for C3 at the one-byte response `[72]` (`"H"`). -/
theorem ok_iff_status_line_starts_101_witness :
    ([72] : List Nat) ≠ [] ∧
    (probeParse "x" ([72] : List Nat)).ok
      = pyStartswith (probeParse "x" ([72] : List Nat)).status_line "HTTP/1.1 101" :=
  ⟨by decide, (ok_iff_status_line_starts_101 "x" [72] (by decide) []).1⟩

/-- Claim C4: a successful connection whose single read returns zero bytes
is not an error: the result carries the `<no response>` sentinel with
`ok = false`, and in comparison mode the driver still runs the second probe
(two connection attempts), prints nothing to the error stream, and derives
the exit code from the table with `no-ext.ok = false`. -/
theorem empty_response_is_not_an_error (label host path : String) (verb : Bool)
    (b2 : List Nat) :
    probeParse label [] = ⟨label, "<no response>", "", false⟩ ∧
    mainRun ⟨host, 8080, path, false, false, verb⟩ (.received []) (.received b2)
      = ⟨comparisonExitCode false (probeParse "with-ext" b2).ok, 2, false⟩ :=
  ⟨rfl, by norm_num [mainRun, runProbe, probeParse]⟩

/-- Claim C5: on the raw bytes
`b"HTTP/1.1 101 Switching Protocols\r\nUpgrade: websocket\r\n\r\nignored-body"`
the header block is the text before the blank-line terminator and the status
line is its first line. -/
theorem header_block_extraction_example (label : String) :
    probeParse label
        (strBytes "HTTP/1.1 101 Switching Protocols\r\nUpgrade: websocket\r\n\r\nignored-body")
      = ⟨label, "HTTP/1.1 101 Switching Protocols",
         "HTTP/1.1 101 Switching Protocols\r\nUpgrade: websocket", true⟩ := rfl

/-- Claim C6: decoding maps each byte to one character (it is a total
function on arbitrary byte values, so it never raises), and when the
response contains no `\r\n\r\n` terminator the header block is the entire
decoded text and the status line is its first line — parsing is total. -/
theorem parse_never_fails_no_terminator (label : String) (bs : List Nat) (hbs : bs ≠ [])
    (hterm : containsSeq crlfcrlf (decodeLatin1 bs) = false) :
    decodeLatin1 bs = bs.map (fun b => Char.ofNat b) ∧
    (decodeLatin1 bs).length = bs.length ∧
    (probeParse label bs).header_block = ⟨decodeLatin1 bs⟩ ∧
    (probeParse label bs).status_line = ⟨splitFirst crlf (decodeLatin1 bs)⟩ := by
  refine ⟨rfl, by simp [decodeLatin1], ?_, ?_⟩
  · simp [probeParse, hbs, splitFirst_eq_self_of_not_containsSeq crlfcrlf _ hterm]
  · simp [probeParse, hbs, splitFirst_eq_self_of_not_containsSeq crlfcrlf _ hterm]

/-- Witness for C6 on a terminator-free response. -/
theorem parse_never_fails_no_terminator_witness :
    strBytes "HTTP/1.1 200 OK" ≠ [] ∧
    containsSeq crlfcrlf (decodeLatin1 (strBytes "HTTP/1.1 200 OK")) = false ∧
    (probeParse "x" (strBytes "HTTP/1.1 200 OK")).header_block
      = ⟨decodeLatin1 (strBytes "HTTP/1.1 200 OK")⟩ :=
  ⟨by decide, by decide,
    (parse_never_fails_no_terminator "x" (strBytes "HTTP/1.1 200 OK")
      (by decide) (by decide)).2.2.1⟩

set_option maxRecDepth 4000

/-- Claim C7: the request is the request line `GET {path} HTTP/1.1` followed
by `Host`, `Upgrade: websocket`, `Connection: Upgrade`, `Sec-WebSocket-Key`,
`Sec-WebSocket-Version: 13` in that fixed order, then the exact
`Sec-WebSocket-Extensions: permessage-deflate; client_max_window_bits`
header exactly when `include_extensions` is true — and no header starting
with `Sec-WebSocket-Extensions:` at all when it is false — the block
terminated by CRLF CRLF. -/
theorem request_wire_format (host : String) (port : Int) (path key : String) :
    buildRequest host port path key false =
      "GET " ++ path ++ " HTTP/1.1" ++ "\r\n" ++ "Host: " ++ host ++ ":" ++ toString port
        ++ "\r\n" ++ "Upgrade: websocket" ++ "\r\n" ++ "Connection: Upgrade" ++ "\r\n"
        ++ "Sec-WebSocket-Key: " ++ key ++ "\r\n" ++ "Sec-WebSocket-Version: 13"
        ++ "\r\n\r\n" ∧
    buildRequest host port path key true =
      "GET " ++ path ++ " HTTP/1.1" ++ "\r\n" ++ "Host: " ++ host ++ ":" ++ toString port
        ++ "\r\n" ++ "Upgrade: websocket" ++ "\r\n" ++ "Connection: Upgrade" ++ "\r\n"
        ++ "Sec-WebSocket-Key: " ++ key ++ "\r\n" ++ "Sec-WebSocket-Version: 13" ++ "\r\n"
        ++ "Sec-WebSocket-Extensions: permessage-deflate; client_max_window_bits"
        ++ "\r\n\r\n" ∧
    buildHeaders host port path key false =
      ["GET " ++ path ++ " HTTP/1.1", "Host: " ++ host ++ ":" ++ toString port,
       "Upgrade: websocket", "Connection: Upgrade", "Sec-WebSocket-Key: " ++ key,
       "Sec-WebSocket-Version: 13"] ∧
    ∀ x ∈ buildHeaders host port path key false,
      ("Sec-WebSocket-Extensions:".data).isPrefixOf x.data = false := by
  refine ⟨?_, ?_, rfl, ?_⟩
  · apply String.ext
    simp [buildRequest, buildHeaders, joinCRLF, String.data_append, List.append_assoc]
  · apply String.ext
    simp [buildRequest, buildHeaders, joinCRLF, String.data_append, List.append_assoc]
  · intro x hx
    simp only [buildHeaders, if_neg (by simp : ¬ (false = true)), List.mem_cons,
      List.mem_singleton, List.not_mem_nil] at hx
    rcases hx with rfl | rfl | rfl | rfl | rfl | rfl | h
    · rw [String.data_append, String.data_append, List.append_assoc]
      exact isPrefixOf_append_eq_false _ "GET ".data _ (by decide)
    · rw [String.data_append, String.data_append, String.data_append,
        List.append_assoc, List.append_assoc]
      exact isPrefixOf_append_eq_false _ "Host: ".data _ (by decide)
    · decide
    · decide
    · rw [String.data_append]
      exact isPrefixOf_append_eq_false _ "Sec-WebSocket-Key: ".data _ (by decide)
    · decide
    · exact absurd h (by simp)

/-- Claim C8: in comparison mode, a connection-level failure during the
first probe means the second probe is never started (one connection
attempt), the error stream is written, and the exit code is 2; a failure
during the second probe likewise ends the run with exit code 2 and an error
message. -/
theorem conn_failure_aborts_comparison (a : Args) (hport : 1 ≤ a.port ∧ a.port ≤ 65535)
    (hsingle : a.single = false) (n2 : NetOutcome) (bs : List Nat) :
    mainRun a .connError n2 = ⟨2, 1, true⟩ ∧
    mainRun a (.received bs) .connError = ⟨2, 2, true⟩ := by
  constructor <;> simp [mainRun, if_pos hport, hsingle, runProbe]

/-- Witness for C8 at the default configuration. -/
theorem conn_failure_aborts_comparison_witness :
    (1 ≤ (8080 : Int) ∧ (8080 : Int) ≤ 65535) ∧
    mainRun ⟨"127.0.0.1", 8080, "/", false, false, false⟩ .connError .connError
      = ⟨2, 1, true⟩ :=
  ⟨by decide, (conn_failure_aborts_comparison ⟨"127.0.0.1", 8080, "/", false, false, false⟩
      (by decide) rfl .connError []).1⟩

/-- Claim C9: port validation is exact at the boundaries and happens before
any socket is opened: ports 0 and 65536 are rejected with the usage exit
code and zero connection attempts, while ports 1 and 65535 are accepted and
a connection is attempted. -/
theorem port_boundary_validation (host path : String) (single ext verb : Bool)
    (n1 n2 : NetOutcome) :
    mainRun ⟨host, 0, path, single, ext, verb⟩ n1 n2 = ⟨usageExitCode, 0, true⟩ ∧
    mainRun ⟨host, 65536, path, single, ext, verb⟩ n1 n2 = ⟨usageExitCode, 0, true⟩ ∧
    1 ≤ (mainRun ⟨host, 1, path, single, ext, verb⟩ n1 n2).connAttempts ∧
    1 ≤ (mainRun ⟨host, 65535, path, single, ext, verb⟩ n1 n2).connAttempts := by
  refine ⟨by norm_num [mainRun], by norm_num [mainRun], ?_, ?_⟩ <;>
    cases single <;> cases n1 <;> cases n2 <;> norm_num [mainRun, runProbe]

/-- Claim C10: `ok` is a pure string-prefix test, so any status line merely
extending `"HTTP/1.1 101"` yields `ok = true` even when the status code is
not 101: a response whose first line is `HTTP/1.1 1010 Weird` parses to that
status line with `ok = true`. -/
theorem status_line_prefix_extension_ok (label s : String) (d : List Nat) :
    pyStartswith ("HTTP/1.1 101" ++ s) "HTTP/1.1 101" = true ∧
    (probeParse label (strBytes "HTTP/1.1 1010 Weird" ++ (13 :: 10 :: d))).status_line
      = "HTTP/1.1 1010 Weird" ∧
    (probeParse label (strBytes "HTTP/1.1 1010 Weird" ++ (13 :: 10 :: d))).ok = true := by
  refine ⟨?_, (probeParse_line_crlf label "HTTP/1.1 1010 Weird" (by decide) d).1, ?_⟩
  · rw [pyStartswith, String.data_append]
    exact isPrefixOf_append_left _ _
  · rw [(probeParse_line_crlf label "HTTP/1.1 1010 Weird" (by decide) d).2]
    decide

end WsProbe
